import Mathlib

/-!
Shallow embedding of the LiveTraffic weather-acquisition subsystem
(`Src/LTWeather.cpp`): the XML tag scanner `GetXMLValue`, the response
interpreter `WeatherProcessResponse`, the blocking fetch worker
`WeatherFetch` (with its widening-retry loop and TLS-revocation
mitigation), and the coordinator `WeatherUpdate` with its single-flight
future. Buffers are `List Char`; the network is an explicit oracle;
C++ exceptions are `Except`.
-/

namespace LTWeather

/-- Character list of a string literal. -/
def str (s : String) : List Char := s.toList

/-- Model of C++ `std::string::find(tag, pos)`: the least index `p ≥ pos`
at which `tag` occurs in full inside `r`; `none` plays the role of `npos`. -/
def strFind (r tag : List Char) (pos : Nat) : Option Nat :=
  (List.range (r.length + 1)).find? (fun p => decide (pos ≤ p) && tag.isPrefixOf (r.drop p))

/-- Embedding of `GetXMLValue (_r, _tag, pos)` from `LTWeather.cpp`.
The C++ takes the cursor by reference; here the new cursor is returned as
the second component. If the tag is absent the cursor is returned as it
was (the C++ `return ""` path does not touch `pos`); if the tag is found
but no later `<` exists the cursor is reset to 0. -/
def GetXMLValue (r tag : List Char) (pos : Nat) : List Char × Nat :=
  match strFind r tag pos with
  | none => ([], pos)
  | some p =>
      let startPos := p + tag.length
      match strFind r (str "<") startPos with
      | some q => (((r.drop startPos).take (q - startPos)), q)
      | none => ([], 0)

/-- Value of a digit list, most significant first. -/
def digitsVal (ds : List Char) : Nat := ds.foldl (fun a c => a * 10 + (c.toNat - 48)) 0

/-- Model of `std::stof` on the decimal forms relevant here: leading
whitespace, an optional sign, then digits with an optional fractional
part; `none` models the `std::invalid_argument` raised when no digit can
be consumed. (Exponent, hex, inf and nan forms are not modelled; the
upstream service never produces them.) -/
def stof (s : List Char) : Option ℚ :=
  let s1 := s.dropWhile (fun c => c == ' ' || c == '\t' || c == '\n' || c == '\r')
  let sgn : Int := match s1 with
    | '-' :: _ => -1
    | _ => 1
  let s2 : List Char := match s1 with
    | '-' :: t => t
    | '+' :: t => t
    | t => t
  let intPart := s2.takeWhile Char.isDigit
  let s3 := s2.dropWhile Char.isDigit
  let fracPart : List Char := match s3 with
    | '.' :: t => t.takeWhile Char.isDigit
    | _ => []
  if intPart.isEmpty && fracPart.isEmpty then none
  else some (mkRat (sgn * (digitsVal intPart * 10 ^ fracPart.length + digitsVal fracPart)) (10 ^ fracPart.length))

/-- Modelled from the spec: the fixed inches-of-mercury-to-hectopascal
conversion constant `HPA_per_INCH`; its definition lives in a constants
header that is not among the visible sources. The spec's scenario B gives
`pressureHpa ≈ value × 33.8639`. No claim depends on the numeric value. -/
def HPA_per_INCH : ℚ := 338639 / 10000

/-- One call to the shared sink `dataRefs.SetWeather(hPa, lat, lon,
stationId, METAR)`. The C++ initialises `lat`/`lon` to `NAN` and only
overwrites them when a value was found; `NAN` is modelled as `none`. -/
structure SinkWrite where
  hPa : ℚ
  lat : Option ℚ
  lon : Option ℚ
  stationId : List Char
  METAR : List Char
deriving DecidableEq, Repr

/-- The three return paths of `WeatherProcessResponse`: a non-empty
`<error>` value (logs and returns `false`), no `<altim_in_hg>` value
(returns `false`), or a successful extraction (calls `SetWeather` and
returns `true`). -/
inductive ProcResult where
  | err (msg : List Char)
  | notFound
  | success (w : SinkWrite)
deriving DecidableEq, Repr

/-- `std::stof` applied to an optional field: an empty extraction leaves
the field unset; a non-empty, non-numeric one raises. -/
def stofOpt (v : List Char) : Except (List Char) (Option ℚ) :=
  if v = [] then .ok none
  else match stof v with
       | none => .error v
       | some x => .ok (some x)

/-- Embedding of `WeatherProcessResponse (_r)`. The `Except` error models
the `std::invalid_argument` that `std::stof` raises on a non-numeric
field and that escapes this function. The cursor threading mirrors the
source exactly: `<error>` from 0, `<altim_in_hg>` from the cursor left by
that, then a reset to 0 and `<raw_text>`, `<station_id>`, `<latitude>`,
`<longitude>` in sequence. -/
def WeatherProcessResponse (r : List Char) : Except (List Char) ProcResult :=
  let e := GetXMLValue r (str "<error>") 0
  if e.1 ≠ [] then .ok (.err e.1)
  else
    let a := GetXMLValue r (str "<altim_in_hg>") e.2
    if a.1 ≠ [] then
      match stof a.1 with
      | none => .error a.1
      | some v =>
        let hPa := v * HPA_per_INCH
        let mt := GetXMLValue r (str "<raw_text>") 0
        let st := GetXMLValue r (str "<station_id>") mt.2
        let la := GetXMLValue r (str "<latitude>") st.2
        match stofOpt la.1 with
        | .error ex => .error ex
        | .ok lat =>
          let lo := GetXMLValue r (str "<longitude>") la.2
          match stofOpt lo.1 with
          | .error ex => .error ex
          | .ok lon => .ok (.success ⟨hPa, lat, lon, st.1, mt.1⟩)
    else .ok .notFound

/-- `true` exactly when `WeatherProcessResponse` returns (rather than
raises) and its C++ boolean result is `false`. -/
def returnsFalse : Except (List Char) ProcResult → Bool
  | .ok (.err _) => true
  | .ok .notFound => true
  | _ => false

/-- `true` exactly when `WeatherProcessResponse` returns `true` in C++,
i.e. the body was classified as a successful observation. -/
def isSuccess : Except (List Char) ProcResult → Bool
  | .ok (.success _) => true
  | _ => false

/-- The value and final cursor of the interpreter's very first step:
extracting `<error>` from cursor 0. -/
def errorVal (r : List Char) : List Char × Nat := GetXMLValue r (str "<error>") 0

/-- The interpreter's NotFound case: empty `<error>` extraction, then an
empty `<altim_in_hg>` extraction from the cursor that step left. -/
def NotFoundBody (r : List Char) : Prop :=
  (errorVal r).1 = [] ∧ (GetXMLValue r (str "<altim_in_hg>") (errorVal r).2).1 = []

instance (r : List Char) : Decidable (NotFoundBody r) := by
  unfold NotFoundBody; infer_instance

/-- The interpreter's ProtocolError case: the `<error>` extraction from
cursor 0 is non-empty. -/
def ProtocolErrorBody (r : List Char) : Prop := (errorVal r).1 ≠ []

instance (r : List Char) : Decidable (ProtocolErrorBody r) := by
  unfold ProtocolErrorBody; infer_instance

/-- The interpreter's best-effort field chain after a found pressure: the
`<raw_text>` extraction restarts at cursor 0, and each later field starts
at the cursor its predecessor left. -/
def rawTextAt (r : List Char) : List Char × Nat := GetXMLValue r (str "<raw_text>") 0

/-- Extraction of `<station_id>` at its place in the chain. -/
def stationAt (r : List Char) : List Char × Nat :=
  GetXMLValue r (str "<station_id>") (rawTextAt r).2

/-- Extraction of `<latitude>` at its place in the chain. -/
def latAt (r : List Char) : List Char × Nat := GetXMLValue r (str "<latitude>") (stationAt r).2

/-- Extraction of `<longitude>` at its place in the chain. -/
def lonAt (r : List Char) : List Char × Nat := GetXMLValue r (str "<longitude>") (latAt r).2

/-- `true` iff `stofOpt` on this extraction does not raise: the field is
absent/empty or numeric. -/
def stofOptOk (v : List Char) : Bool :=
  match stofOpt v with
  | .ok _ => true
  | .error _ => false

/-- Maximum search radius [nm] (`MAX_WEATHER_RADIUS_NM = 100.0f`). -/
def MAX_WEATHER_RADIUS_NM : ℚ := 100

/-- Result of one `curl_easy_perform`: either `CURLE_OK` together with the
HTTP response code read by `curl_easy_getinfo`, or a curl-level failure
with the text left in `curl_errtxt`. In both cases `body` is whatever the
write callback `WeatherFetchCB` appended to the read buffer during that
transfer (`WeatherFetchCB` appends unconditionally, also for non-200
responses and for transfers that later fail). -/
inductive CurlResult where
  | ok (httpStatus : Int) (body : List Char)
  | err (errtxt : List Char) (body : List Char)
deriving DecidableEq, Repr

/-- The environment of one `WeatherFetch` run: `resp n` is the outcome of
the n-th `curl_easy_perform` on the handle, and `isRevocationError` is
the external classifier `LTOnlineChannel::IsRevocationError`. -/
structure NetOracle where
  resp : Nat → CurlResult
  isRevocationError : List Char → Bool

/-- One issued HTTP request: the radius the URL was built from and
whether `CURLSSLOPT_NO_REVOKE` was already set on the handle. -/
structure Request where
  radius_nm : ℚ
  noRevoke : Bool
deriving DecidableEq, Repr

/-- The worker-local state threaded through the do-while loop of
`WeatherFetch`, together with the observable traces: the requests
performed, the buffers handed to `WeatherProcessResponse`, and the sink
writes (`dataRefs.SetWeather` calls) performed. -/
structure Iter where
  bRet : Bool
  readBuf : List Char
  noRevoke : Bool
  perfIdx : Nat
  requests : List Request
  processed : List (List Char)
  sinkWrites : List SinkWrite
deriving DecidableEq, Repr

/-- One `curl_easy_perform`: consults the oracle, appends the received
data to the read buffer (never cleared between attempts) and logs the
request. -/
def perform1 (net : NetOracle) (radius : ℚ) (acc : Iter) : CurlResult × Iter :=
  let res := net.resp acc.perfIdx
  let body := match res with
    | .ok _ b => b
    | .err _ b => b
  (res, { acc with readBuf := acc.readBuf ++ body,
                   perfIdx := acc.perfIdx + 1,
                   requests := acc.requests ++ [⟨radius, acc.noRevoke⟩] })

/-- One pass of the do-while body of `WeatherFetch`: perform the request;
on a curl failure classified as a revocation-check failure, set
`CURLSSLOPT_NO_REVOKE` on the handle and retry that same request once;
on `CURLE_OK` with HTTP 200 hand the (accumulated) read buffer to
`WeatherProcessResponse`. The returned `Bool` is `bRepeat`; a raised
`std::stof` exception is `.error` carrying the state at the throw. -/
def iteration (net : NetOracle) (radius : ℚ) (acc0 : Iter) :
    Except (List Char × Iter) (Iter × Bool) :=
  let p1 := perform1 net radius acc0
  let p2 := match p1.1 with
    | .err errtxt _ =>
        if net.isRevocationError errtxt then
          perform1 net radius { p1.2 with noRevoke := true }
        else p1
    | .ok _ _ => p1
  match p2.1 with
  | .err _ _ => .ok (p2.2, false)
  | .ok httpResponse _ =>
    if httpResponse ≠ 200 then .ok (p2.2, false)
    else
      let acc := { p2.2 with processed := p2.2.processed ++ [p2.2.readBuf] }
      match WeatherProcessResponse acc.readBuf with
      | .error e => .error (e, acc)
      | .ok (.success w) =>
          .ok ({ acc with bRet := true, sinkWrites := acc.sinkWrites ++ [w] }, false)
      | .ok _ =>
          .ok ({ acc with bRet := false }, decide (radius < MAX_WEATHER_RADIUS_NM))

/-- The do-while loop of `WeatherFetch`. When `bRepeat` is set the source
has just assigned `_radius_nm = MAX_WEATHER_RADIUS_NM`, so the recursive
pass runs at the maximum radius. `fuel` makes the recursion structural;
the zero branch is dead code: `fetchLoop_fuel_enough` below proves that
fuel 2 is never exhausted, because a repeat pass runs at the maximum
radius and can therefore not set `bRepeat` again. -/
def fetchLoop (net : NetOracle) : Nat → ℚ → Iter → Except (List Char × Iter) Iter
  | 0, _, acc => .ok acc
  | fuel + 1, radius, acc =>
    match iteration net radius acc with
    | .error e => .error e
    | .ok (acc', bRepeat) =>
        if bRepeat then fetchLoop net fuel MAX_WEATHER_RADIUS_NM acc' else .ok acc'

/-- Embedding of `WeatherFetch (_lat, _lon, _radius_nm)`. The try/catch
boundary of the source is the outer match: an exception raised inside the
loop is caught here, `bRet` keeps the value it had at the throw, and the
function still returns normally. The first component is the returned
`bRet`; the second carries the observable traces. -/
def WeatherFetch (net : NetOracle) (_lat _lon _radius_nm : ℚ) : Bool × Iter :=
  match fetchLoop net 2 _radius_nm ⟨false, [], false, 0, [], [], []⟩ with
  | .ok acc => (acc.bRet, acc)
  | .error (_, acc) => (acc.bRet, acc)

/-- The two accessors of `positionTy` that `WeatherUpdate` uses; the type
itself is an external collaborator. -/
structure positionTy where
  lat : ℚ
  lon : ℚ
deriving DecidableEq, Repr

/-- The process-wide singleton `static std::future<bool> futWeather`:
whether `valid()` holds, and whether `wait_for(0s)` reports
`future_status::ready`. -/
structure CoordState where
  futValid : Bool
  futReady : Bool
deriving DecidableEq, Repr

/-- Embedding of `WeatherUpdate (pos, radius_nm)`. `newReady` is the
environment-chosen readiness of a freshly launched future. Result:
(return value, new `futWeather` state, arguments `(lat, lon, radius_nm)`
of the `WeatherFetch` worker launched via `std::async`, if any). -/
def WeatherUpdate (st : CoordState) (pos : positionTy) (radius_nm : ℚ) (newReady : Bool) :
    Bool × CoordState × Option (ℚ × ℚ × ℚ) :=
  if 80 ≤ pos.lat then (false, st, none)
  else if st.futValid && !st.futReady then (false, st, none)
  else (true, ⟨true, newReady⟩, some (pos.lat, pos.lon, radius_nm))

/-! Concrete fixtures used by witnesses and counterexamples. -/

/-- A body holding an empty `<error>` element, then `<error>X</error>`
with non-empty content, then a valid pressure. -/
def bodyTwoErrors : List Char :=
  str "<error></error><error>X</error><altim_in_hg>29.92</altim_in_hg>"

/-- A body whose first `<error>` is immediately followed by `<` and whose
pressure field is non-numeric. -/
def bodyEmptyErrBadAltim : List Char := str "<error><altim_in_hg>abc</altim_in_hg>"

/-- A body whose first `<error>` is immediately followed by `<` and whose
pressure field parses. -/
def bodyEmptyErrGoodAltim : List Char := str "<error><altim_in_hg>29.9</altim_in_hg>"

/-- A well-formed empty result (no `<altim_in_hg>`, no `<error>` value). -/
def bodyNoResults : List Char := str "<data/>"

/-- A body carrying a service error message. -/
def bodyServiceError : List Char := str "<error>X</error>"

/-- A body with a non-numeric pressure and no error element. -/
def bodyBadAltim : List Char := str "<altim_in_hg>abc</altim_in_hg>"

/-- Oracle answering every request with HTTP 200 and an empty result. -/
def netNotFound : NetOracle where
  resp n := if n = 0 then .ok 200 bodyNoResults else .ok 200 (str "<x/>")
  isRevocationError _ := false

/-- Oracle answering the first request with a service error body and any
later one with an empty body. -/
def netServiceError : NetOracle where
  resp n := if n = 0 then .ok 200 bodyServiceError else .ok 200 []
  isRevocationError _ := false

/-- Oracle answering every request with a non-numeric pressure body. -/
def netBadAltim : NetOracle where
  resp _ := .ok 200 bodyBadAltim
  isRevocationError _ := false

/-! Helper lemmas about the interpreter. -/

/-- When the tag is not found at or after the cursor, `GetXMLValue`
returns the empty string and leaves the cursor where it was. -/
theorem getXMLValue_of_absent (r tag : List Char) (pos : Nat)
    (h : strFind r tag pos = none) : GetXMLValue r tag pos = ([], pos) := by
  unfold GetXMLValue
  rw [h]

/-- A body whose first `<error>` extraction is non-empty is classified by
`WeatherProcessResponse` as that error; the interpreter returns `false`
to the worker and performs no sink write. -/
theorem processResponse_of_protocolError (r : List Char) (h : ProtocolErrorBody r) :
    WeatherProcessResponse r = .ok (.err (errorVal r).1) := by
  unfold ProtocolErrorBody errorVal at h
  unfold WeatherProcessResponse errorVal
  rw [if_pos h]

/-- A body whose `<error>` extraction is empty and whose `<altim_in_hg>`
extraction (from the cursor the error step left) is empty is classified
as `notFound`; the interpreter returns `false` with no sink write. -/
theorem processResponse_of_notFound (r : List Char) (h : NotFoundBody r) :
    WeatherProcessResponse r = .ok .notFound := by
  obtain ⟨h1, h2⟩ := h
  unfold errorVal at h1 h2
  unfold WeatherProcessResponse
  rw [if_neg (fun hne => hne h1), if_neg (fun hne => hne h2)]

/-- Both false-returning classifications make `returnsFalse` true. -/
theorem returnsFalse_of_protocolError (r : List Char) (h : ProtocolErrorBody r) :
    returnsFalse (WeatherProcessResponse r) = true := by
  rw [processResponse_of_protocolError r h]; rfl

theorem returnsFalse_of_notFound (r : List Char) (h : NotFoundBody r) :
    returnsFalse (WeatherProcessResponse r) = true := by
  rw [processResponse_of_notFound r h]; rfl

/-! Computation lemmas for one pass of the worker loop. -/

/-- An HTTP-200 pass whose (accumulated) buffer is classified as a
failure (`err` or `notFound`) clears `bRet`, performs no sink write, and
repeats exactly when the radius is below the maximum. -/
theorem iteration_200_fail (net : NetOracle) (radius : ℚ) (acc : Iter) (b : List Char)
    (hresp : net.resp acc.perfIdx = .ok 200 b)
    (hf : returnsFalse (WeatherProcessResponse (acc.readBuf ++ b)) = true) :
    iteration net radius acc =
      .ok ({ acc with bRet := false,
                      readBuf := acc.readBuf ++ b,
                      perfIdx := acc.perfIdx + 1,
                      requests := acc.requests ++ [⟨radius, acc.noRevoke⟩],
                      processed := acc.processed ++ [acc.readBuf ++ b] },
           decide (radius < MAX_WEATHER_RADIUS_NM)) := by
  cases hWP : WeatherProcessResponse (acc.readBuf ++ b) with
  | error e => rw [hWP] at hf; simp [returnsFalse] at hf
  | ok pr =>
    cases pr with
    | success w => rw [hWP] at hf; simp [returnsFalse] at hf
    | err m => simp only [iteration, perform1, hresp]; norm_num; simp [hWP]
    | notFound => simp only [iteration, perform1, hresp]; norm_num; simp [hWP]

/-- An HTTP-200 pass whose buffer is classified as a success sets `bRet`,
appends exactly one sink write, and does not repeat. -/
theorem iteration_200_success (net : NetOracle) (radius : ℚ) (acc : Iter) (b : List Char)
    (w : SinkWrite) (hresp : net.resp acc.perfIdx = .ok 200 b)
    (hWP : WeatherProcessResponse (acc.readBuf ++ b) = .ok (.success w)) :
    iteration net radius acc =
      .ok ({ acc with bRet := true,
                      readBuf := acc.readBuf ++ b,
                      perfIdx := acc.perfIdx + 1,
                      requests := acc.requests ++ [⟨radius, acc.noRevoke⟩],
                      processed := acc.processed ++ [acc.readBuf ++ b],
                      sinkWrites := acc.sinkWrites ++ [w] }, false) := by
  simp only [iteration, perform1, hresp]; norm_num; simp [hWP]

/-- An HTTP-200 pass whose processing raises propagates the exception,
with `bRet` and the sink trace untouched. -/
theorem iteration_200_procError (net : NetOracle) (radius : ℚ) (acc : Iter) (b e : List Char)
    (hresp : net.resp acc.perfIdx = .ok 200 b)
    (hWP : WeatherProcessResponse (acc.readBuf ++ b) = .error e) :
    iteration net radius acc =
      .error (e, { acc with readBuf := acc.readBuf ++ b,
                            perfIdx := acc.perfIdx + 1,
                            requests := acc.requests ++ [⟨radius, acc.noRevoke⟩],
                            processed := acc.processed ++ [acc.readBuf ++ b] }) := by
  simp only [iteration, perform1, hresp]; norm_num; simp [hWP]

/-- A pass whose transport succeeded but whose HTTP status is not 200
logs and ends without repeating; `bRet` and the sink trace are
untouched, though the received body was still appended to the buffer. -/
theorem iteration_non200 (net : NetOracle) (radius : ℚ) (acc : Iter) (s : Int) (b : List Char)
    (hresp : net.resp acc.perfIdx = .ok s b) (hs : s ≠ 200) :
    iteration net radius acc =
      .ok ({ acc with readBuf := acc.readBuf ++ b,
                      perfIdx := acc.perfIdx + 1,
                      requests := acc.requests ++ [⟨radius, acc.noRevoke⟩] }, false) := by
  simp only [iteration, perform1, hresp]
  rw [if_pos hs]

/-- Full case analysis of one pass, tracking `bRet`, the sink trace and
the repeat flag: an exception preserves both; a normal completion either
preserves the trace (keeping or clearing `bRet`) and can only ask for a
repeat when the radius was below the maximum, or appends exactly one
sink write, sets `bRet`, and does not repeat. -/
theorem iteration_cases (net : NetOracle) (radius : ℚ) (acc : Iter) :
    (∃ e a, iteration net radius acc = .error (e, a) ∧
        a.sinkWrites = acc.sinkWrites ∧ a.bRet = acc.bRet) ∨
    (∃ a rep, iteration net radius acc = .ok (a, rep) ∧
        a.sinkWrites = acc.sinkWrites ∧ (a.bRet = acc.bRet ∨ a.bRet = false) ∧
        (rep = true → radius < MAX_WEATHER_RADIUS_NM)) ∨
    (∃ a w, iteration net radius acc = .ok (a, false) ∧
        a.sinkWrites = acc.sinkWrites ++ [w] ∧ a.bRet = true) := by
  rcases h1 : net.resp acc.perfIdx with ⟨s, b⟩ | ⟨t, b⟩
  · by_cases hs : s = 200
    · subst hs
      rcases hWP : WeatherProcessResponse (acc.readBuf ++ b) with e | pr
      · exact Or.inl ⟨e, _, iteration_200_procError net radius acc b e h1 hWP, rfl, rfl⟩
      · cases pr with
        | err m =>
          exact Or.inr (Or.inl ⟨_, _,
            iteration_200_fail net radius acc b h1 (by rw [hWP]; rfl), rfl,
            Or.inr rfl, fun hd => of_decide_eq_true hd⟩)
        | notFound =>
          exact Or.inr (Or.inl ⟨_, _,
            iteration_200_fail net radius acc b h1 (by rw [hWP]; rfl), rfl,
            Or.inr rfl, fun hd => of_decide_eq_true hd⟩)
        | success w =>
          exact Or.inr (Or.inr ⟨_, w,
            iteration_200_success net radius acc b w h1 hWP, rfl, rfl⟩)
    · exact Or.inr (Or.inl ⟨_, false, iteration_non200 net radius acc s b h1 hs, rfl,
        Or.inl rfl, by simp⟩)
  · by_cases hrev : net.isRevocationError t
    · rcases h2 : net.resp (acc.perfIdx + 1) with ⟨s2, b2⟩ | ⟨t2, b2⟩
      · by_cases hs2 : s2 = 200
        · subst hs2
          rcases hWP : WeatherProcessResponse (acc.readBuf ++ (b ++ b2)) with e | pr
          · have hit : iteration net radius acc =
                .error (e, Iter.mk acc.bRet (acc.readBuf ++ (b ++ b2)) true
                  (acc.perfIdx + 1 + 1)
                  (acc.requests ++ [⟨radius, acc.noRevoke⟩, ⟨radius, true⟩])
                  (acc.processed ++ [acc.readBuf ++ (b ++ b2)]) acc.sinkWrites) := by
              simp only [iteration, perform1, h1, hrev, if_true, h2]
              simp [hWP]
            exact Or.inl ⟨e, _, hit, rfl, rfl⟩
          · cases pr with
            | err m =>
              have hit : iteration net radius acc =
                  .ok (Iter.mk false (acc.readBuf ++ (b ++ b2)) true
                    (acc.perfIdx + 1 + 1)
                    (acc.requests ++ [⟨radius, acc.noRevoke⟩, ⟨radius, true⟩])
                    (acc.processed ++ [acc.readBuf ++ (b ++ b2)]) acc.sinkWrites,
                    decide (radius < MAX_WEATHER_RADIUS_NM)) := by
                simp only [iteration, perform1, h1, hrev, if_true, h2]
                simp [hWP]
              exact Or.inr (Or.inl ⟨_, _, hit, rfl, Or.inr rfl,
                fun hd => of_decide_eq_true hd⟩)
            | notFound =>
              have hit : iteration net radius acc =
                  .ok (Iter.mk false (acc.readBuf ++ (b ++ b2)) true
                    (acc.perfIdx + 1 + 1)
                    (acc.requests ++ [⟨radius, acc.noRevoke⟩, ⟨radius, true⟩])
                    (acc.processed ++ [acc.readBuf ++ (b ++ b2)]) acc.sinkWrites,
                    decide (radius < MAX_WEATHER_RADIUS_NM)) := by
                simp only [iteration, perform1, h1, hrev, if_true, h2]
                simp [hWP]
              exact Or.inr (Or.inl ⟨_, _, hit, rfl, Or.inr rfl,
                fun hd => of_decide_eq_true hd⟩)
            | success w =>
              have hit : iteration net radius acc =
                  .ok (Iter.mk true (acc.readBuf ++ (b ++ b2)) true
                    (acc.perfIdx + 1 + 1)
                    (acc.requests ++ [⟨radius, acc.noRevoke⟩, ⟨radius, true⟩])
                    (acc.processed ++ [acc.readBuf ++ (b ++ b2)])
                    (acc.sinkWrites ++ [w]), false) := by
                simp only [iteration, perform1, h1, hrev, if_true, h2]
                simp [hWP]
              exact Or.inr (Or.inr ⟨_, w, hit, rfl, rfl⟩)
        · have hit : iteration net radius acc =
              .ok (Iter.mk acc.bRet (acc.readBuf ++ (b ++ b2)) true
                (acc.perfIdx + 1 + 1)
                (acc.requests ++ [⟨radius, acc.noRevoke⟩, ⟨radius, true⟩])
                acc.processed acc.sinkWrites, false) := by
            simp only [iteration, perform1, h1, hrev, if_true, h2]
            simp [hs2]
          exact Or.inr (Or.inl ⟨_, false, hit, rfl, Or.inl rfl, by simp⟩)
      · have hit : iteration net radius acc =
            .ok (Iter.mk acc.bRet (acc.readBuf ++ (b ++ b2)) true
              (acc.perfIdx + 1 + 1)
              (acc.requests ++ [⟨radius, acc.noRevoke⟩, ⟨radius, true⟩])
              acc.processed acc.sinkWrites, false) := by
          simp only [iteration, perform1, h1, hrev, if_true, h2]
          simp [List.append_assoc]
        exact Or.inr (Or.inl ⟨_, false, hit, rfl, Or.inl rfl, by simp⟩)
    · have hit : iteration net radius acc =
          .ok (Iter.mk acc.bRet (acc.readBuf ++ b) acc.noRevoke (acc.perfIdx + 1)
            (acc.requests ++ [⟨radius, acc.noRevoke⟩])
            acc.processed acc.sinkWrites, false) := by
        simp only [iteration, perform1, h1]
        simp [hrev]
      exact Or.inr (Or.inl ⟨_, false, hit, rfl, Or.inl rfl, by simp⟩)

/-- A pass can request a repeat only when its radius was below the
maximum: the repeat flag of the source is literally
`_radius_nm < MAX_WEATHER_RADIUS_NM`. -/
theorem iteration_rep_lt (net : NetOracle) (radius : ℚ) (acc a : Iter)
    (h : iteration net radius acc = .ok (a, true)) :
    radius < MAX_WEATHER_RADIUS_NM := by
  rcases iteration_cases net radius acc with ⟨e, a1, hit, _, _⟩ |
    ⟨a1, rep, hit, _, _, hrep⟩ | ⟨a1, w, hit, _, _⟩
  · rw [h] at hit; cases hit
  · rw [h] at hit
    injection hit with h1
    injection h1 with h2 h3
    exact hrep h3.symm
  · rw [h] at hit
    injection hit with h1
    injection h1 with h2 h3
    cases h3

/-- Unfolding equation of the worker loop at positive fuel. -/
theorem fetchLoop_succ (net : NetOracle) (fuel : Nat) (radius : ℚ) (acc : Iter) :
    fetchLoop net (fuel + 1) radius acc =
      match iteration net radius acc with
      | .error e => .error e
      | .ok (acc', bRepeat) =>
          if bRepeat then fetchLoop net fuel MAX_WEATHER_RADIUS_NM acc' else .ok acc' := rfl

/-- Fuel 2 suffices for the worker loop: extra fuel gives the same
result, because a repeating pass hands the maximum radius to the next
pass, and a pass at the maximum radius never repeats
(`iteration_rep_lt`); the zero-fuel branch of `fetchLoop` is dead code
for the fuel `WeatherFetch` uses. -/
theorem fetchLoop_fuel_enough (net : NetOracle) (k : Nat) (radius : ℚ) (acc : Iter) :
    fetchLoop net (k + 2) radius acc = fetchLoop net 2 radius acc := by
  have h1 : fetchLoop net (k + 2) radius acc =
      match iteration net radius acc with
      | .error e => .error e
      | .ok (acc', bRepeat) =>
          if bRepeat then fetchLoop net (k + 1) MAX_WEATHER_RADIUS_NM acc' else .ok acc' :=
    fetchLoop_succ net (k + 1) radius acc
  have h2 : fetchLoop net 2 radius acc =
      match iteration net radius acc with
      | .error e => .error e
      | .ok (acc', bRepeat) =>
          if bRepeat then fetchLoop net 1 MAX_WEATHER_RADIUS_NM acc' else .ok acc' :=
    fetchLoop_succ net 1 radius acc
  rw [h1, h2]
  cases hit : iteration net radius acc with
  | error e => rfl
  | ok p =>
    obtain ⟨a, rep⟩ := p
    cases rep
    · rfl
    · show fetchLoop net (k + 1) MAX_WEATHER_RADIUS_NM a =
        fetchLoop net 1 MAX_WEATHER_RADIUS_NM a
      rw [fetchLoop_succ net k, fetchLoop_succ net 0]
      cases hit2 : iteration net MAX_WEATHER_RADIUS_NM a with
      | error e => rfl
      | ok p2 =>
        obtain ⟨a2, rep2⟩ := p2
        cases rep2
        · rfl
        · exact absurd (iteration_rep_lt net _ a a2 hit2) (lt_irrefl _)

/-- Loop invariant for the sink: started with `bRet` clear and no sink
writes, the loop ends with at most one write, present exactly when
`bRet` is set; an escaping exception leaves no writes and `bRet` clear. -/
theorem fetchLoop_sink (net : NetOracle) (fuel : Nat) :
    ∀ (radius : ℚ) (acc : Iter), acc.bRet = false → acc.sinkWrites = [] →
      (∀ a, fetchLoop net fuel radius acc = .ok a →
          a.sinkWrites.length ≤ 1 ∧ (a.bRet = true ↔ a.sinkWrites ≠ [])) ∧
      (∀ e a, fetchLoop net fuel radius acc = .error (e, a) →
          a.sinkWrites = [] ∧ a.bRet = false) := by
  induction fuel with
  | zero =>
    intro radius acc hb hw
    refine ⟨fun a ha => ?_, fun e a ha => ?_⟩
    · simp only [fetchLoop] at ha
      injection ha with h
      subst h
      simp [hb, hw]
    · simp only [fetchLoop] at ha
      exact Except.noConfusion ha
  | succ n ih =>
    intro radius acc hb hw
    rcases iteration_cases net radius acc with ⟨e, a1, hit, hs, hbr⟩ |
      ⟨a1, rep, hit, hs, hbr, hrep⟩ | ⟨a1, w, hit, hs, hbr⟩
    · refine ⟨fun a ha => ?_, fun e2 a ha => ?_⟩
      · simp only [fetchLoop_succ, hit] at ha
        exact Except.noConfusion ha
      · simp only [fetchLoop_succ, hit, Except.error.injEq, Prod.mk.injEq] at ha
        obtain ⟨he, haa⟩ := ha
        subst haa
        rw [hs, hw, hbr, hb]
        exact ⟨rfl, rfl⟩
    · cases rep with
      | false =>
        refine ⟨fun a ha => ?_, fun e2 a ha => ?_⟩
        · simp only [fetchLoop_succ, hit, Bool.false_eq_true, if_false,
            Except.ok.injEq] at ha
          subst ha
          have hb1 : a1.bRet = false := by
            rcases hbr with h | h
            · rw [h, hb]
            · exact h
          rw [hs, hw, hb1]
          simp
        · simp only [fetchLoop_succ, hit, Bool.false_eq_true, if_false] at ha
          exact Except.noConfusion ha
      | true =>
        have hb1 : a1.bRet = false := by
          rcases hbr with h | h
          · rw [h, hb]
          · exact h
        have hrec := ih MAX_WEATHER_RADIUS_NM a1 hb1 (hs.trans hw)
        refine ⟨fun a ha => ?_, fun e2 a ha => ?_⟩
        · simp only [fetchLoop_succ, hit, if_true] at ha
          exact hrec.1 a ha
        · simp only [fetchLoop_succ, hit, if_true] at ha
          exact hrec.2 e2 a ha
    · refine ⟨fun a ha => ?_, fun e2 a ha => ?_⟩
      · simp only [fetchLoop_succ, hit, Bool.false_eq_true, if_false,
          Except.ok.injEq] at ha
        subst ha
        rw [hs, hw, hbr]
        simp
      · simp only [fetchLoop_succ, hit, Bool.false_eq_true, if_false] at ha
        exact Except.noConfusion ha

/-- Claim C7: sink frame / stale-on-failure. In every completed fetch the
shared sink is written at most once, and it is written exactly when the
worker returns success; on every other outcome — `notFound`, an `<error>`
body, a transport failure, a non-200 status, or a caught exception — no
write happens, so the sink keeps whatever value it held before. -/
theorem weatherFetch_sink_frame (net : NetOracle) (lat lon radius : ℚ) :
    (WeatherFetch net lat lon radius).2.sinkWrites.length ≤ 1 ∧
    ((WeatherFetch net lat lon radius).1 = true ↔
      (WeatherFetch net lat lon radius).2.sinkWrites ≠ []) := by
  have h := fetchLoop_sink net 2 radius ⟨false, [], false, 0, [], [], []⟩ rfl rfl
  unfold WeatherFetch
  cases hfl : fetchLoop net 2 radius ⟨false, [], false, 0, [], [], []⟩ with
  | ok acc => simpa using h.1 acc hfl
  | error p =>
    obtain ⟨e, a⟩ := p
    have ha := h.2 e a hfl
    simp [ha.1, ha.2]

/-- Core trace computation: when the first attempt comes back HTTP 200
and its body is classified as a failure, the whole fetch consists of that
request plus — exactly when the radius was below the maximum — one
retry at the maximum radius whose interpreter input is the concatenation
of both bodies; nothing further is requested or processed in either
case, whatever the retry's body holds. -/
theorem weatherFetch_fail_trace (net : NetOracle) (lat lon radius : ℚ) (b0 b1 : List Char)
    (h0 : net.resp 0 = .ok 200 b0)
    (hf : returnsFalse (WeatherProcessResponse b0) = true)
    (h1 : net.resp 1 = .ok 200 b1) :
    (radius < MAX_WEATHER_RADIUS_NM →
      (WeatherFetch net lat lon radius).2.requests =
          [⟨radius, false⟩, ⟨MAX_WEATHER_RADIUS_NM, false⟩] ∧
      (WeatherFetch net lat lon radius).2.processed = [b0, b0 ++ b1]) ∧
    (¬ radius < MAX_WEATHER_RADIUS_NM →
      (WeatherFetch net lat lon radius).2.requests = [⟨radius, false⟩] ∧
      (WeatherFetch net lat lon radius).2.processed = [b0]) := by
  have hit1 := iteration_200_fail net radius ⟨false, [], false, 0, [], [], []⟩ b0 h0 hf
  constructor
  · intro hrad
    rw [decide_eq_true hrad] at hit1
    set acc1 : Iter := ⟨false, b0, false, 1, [⟨radius, false⟩], [b0], []⟩ with hacc1
    have hit1' : iteration net radius ⟨false, [], false, 0, [], [], []⟩ = .ok (acc1, true) := by
      rw [hit1]; rfl
    have e1 : fetchLoop net 2 radius ⟨false, [], false, 0, [], [], []⟩ =
        fetchLoop net 1 MAX_WEATHER_RADIUS_NM acc1 := by
      rw [fetchLoop_succ, hit1']
      rfl
    have hr1 : net.resp acc1.perfIdx = .ok 200 b1 := h1
    cases hWP : WeatherProcessResponse (b0 ++ b1) with
    | error e =>
      have hit2 := iteration_200_procError net MAX_WEATHER_RADIUS_NM acc1 b1 e hr1 hWP
      unfold WeatherFetch
      rw [e1, fetchLoop_succ, hit2]
      simp [acc1]
    | ok pr =>
      cases pr with
      | success w =>
        have hit2 := iteration_200_success net MAX_WEATHER_RADIUS_NM acc1 b1 w hr1 hWP
        unfold WeatherFetch
        rw [e1, fetchLoop_succ, hit2]
        simp [acc1]
      | err m =>
        have hf2 : returnsFalse (WeatherProcessResponse (acc1.readBuf ++ b1)) = true := by
          rw [show acc1.readBuf ++ b1 = b0 ++ b1 from rfl, hWP]; rfl
        have hit2 := iteration_200_fail net MAX_WEATHER_RADIUS_NM acc1 b1 hr1 hf2
        rw [decide_eq_false (lt_irrefl MAX_WEATHER_RADIUS_NM)] at hit2
        unfold WeatherFetch
        rw [e1, fetchLoop_succ, hit2]
        simp [acc1]
      | notFound =>
        have hf2 : returnsFalse (WeatherProcessResponse (acc1.readBuf ++ b1)) = true := by
          rw [show acc1.readBuf ++ b1 = b0 ++ b1 from rfl, hWP]; rfl
        have hit2 := iteration_200_fail net MAX_WEATHER_RADIUS_NM acc1 b1 hr1 hf2
        rw [decide_eq_false (lt_irrefl MAX_WEATHER_RADIUS_NM)] at hit2
        unfold WeatherFetch
        rw [e1, fetchLoop_succ, hit2]
        simp [acc1]
  · intro hrad
    rw [decide_eq_false hrad] at hit1
    unfold WeatherFetch
    rw [fetchLoop_succ, hit1]
    simp

/-! Claims about the worker's retry policy. -/

/-- Claim C3: bounded widening retry. If the first request completes with
HTTP 200 and the interpreter classifies the body as `notFound`, then for
a starting radius below the maximum exactly one further request is
issued, at the maximum radius, and no third request follows whatever the
retry returns (in particular when it also yields `notFound`); for a
starting radius at or above the maximum no retry is issued at all. -/
theorem weatherFetch_widen_once (net : NetOracle) (lat lon radius : ℚ) (b0 b1 : List Char)
    (h0 : net.resp 0 = .ok 200 b0)
    (hnf : NotFoundBody b0)
    (h1 : net.resp 1 = .ok 200 b1) :
    (radius < MAX_WEATHER_RADIUS_NM →
      (WeatherFetch net lat lon radius).2.requests =
        [⟨radius, false⟩, ⟨MAX_WEATHER_RADIUS_NM, false⟩]) ∧
    (¬ radius < MAX_WEATHER_RADIUS_NM →
      (WeatherFetch net lat lon radius).2.requests = [⟨radius, false⟩]) := by
  have h := weatherFetch_fail_trace net lat lon radius b0 b1 h0
    (returnsFalse_of_notFound b0 hnf) h1
  exact ⟨fun hr => (h.1 hr).1, fun hr => (h.2 hr).1⟩

/-- Witness for C3: an empty result at radius 25 is retried exactly once,
at radius 100, although the retry finds nothing either. -/
theorem weatherFetch_widen_once_witness :
    netNotFound.resp 0 = .ok 200 bodyNoResults ∧
    NotFoundBody bodyNoResults ∧
    netNotFound.resp 1 = .ok 200 (str "<x/>") ∧
    (((25 : ℚ) < MAX_WEATHER_RADIUS_NM →
        (WeatherFetch netNotFound 33 (-118) 25).2.requests =
          [⟨25, false⟩, ⟨MAX_WEATHER_RADIUS_NM, false⟩]) ∧
      (¬ (25 : ℚ) < MAX_WEATHER_RADIUS_NM →
        (WeatherFetch netNotFound 33 (-118) 25).2.requests = [⟨25, false⟩])) :=
  ⟨by decide, by decide, by decide,
    weatherFetch_widen_once netNotFound 33 (-118) 25 bodyNoResults (str "<x/>")
      (by decide) (by decide) (by decide)⟩

/-- Counterexample to claim C4 as stated: a body with a non-empty
`<error>` value, arriving with HTTP 200 at radius 25, is followed by a
widening retry at the maximum radius — the worker only sees the
interpreter's boolean result and cannot distinguish `ProtocolError` from
`NotFound`, so the outcome is not terminal. -/
theorem protocolError_terminal_cex :
    ProtocolErrorBody bodyServiceError ∧
    (25 : ℚ) < MAX_WEATHER_RADIUS_NM ∧
    (WeatherFetch netServiceError 33 (-118) 25).2.requests =
      [⟨25, false⟩, ⟨MAX_WEATHER_RADIUS_NM, false⟩] := by
  decide

/-- Claim C4, amended: an HTTP-200 body classified as `ProtocolError` is
treated by the worker exactly like `NotFound`, because
`WeatherProcessResponse` reports only a boolean failure: below the
maximum radius it triggers the same single widening retry (and no third
request ever follows); at the maximum radius it is terminal with no
retry. -/
theorem protocolError_retries_amended (net : NetOracle) (lat lon radius : ℚ) (b0 b1 : List Char)
    (h0 : net.resp 0 = .ok 200 b0)
    (hpe : ProtocolErrorBody b0)
    (h1 : net.resp 1 = .ok 200 b1) :
    (radius < MAX_WEATHER_RADIUS_NM →
      (WeatherFetch net lat lon radius).2.requests =
        [⟨radius, false⟩, ⟨MAX_WEATHER_RADIUS_NM, false⟩]) ∧
    (¬ radius < MAX_WEATHER_RADIUS_NM →
      (WeatherFetch net lat lon radius).2.requests = [⟨radius, false⟩]) := by
  have h := weatherFetch_fail_trace net lat lon radius b0 b1 h0
    (returnsFalse_of_protocolError b0 hpe) h1
  exact ⟨fun hr => (h.1 hr).1, fun hr => (h.2 hr).1⟩

/-- Witness for the amended C4. -/
theorem protocolError_retries_amended_witness :
    netServiceError.resp 0 = .ok 200 bodyServiceError ∧
    ProtocolErrorBody bodyServiceError ∧
    netServiceError.resp 1 = .ok 200 [] ∧
    (((30 : ℚ) < MAX_WEATHER_RADIUS_NM →
        (WeatherFetch netServiceError 33 (-118) 30).2.requests =
          [⟨30, false⟩, ⟨MAX_WEATHER_RADIUS_NM, false⟩]) ∧
      (¬ (30 : ℚ) < MAX_WEATHER_RADIUS_NM →
        (WeatherFetch netServiceError 33 (-118) 30).2.requests = [⟨30, false⟩])) :=
  ⟨by decide, by decide, by decide,
    protocolError_retries_amended netServiceError 33 (-118) 30 bodyServiceError []
      (by decide) (by decide) (by decide)⟩

/-- Claim C8: the retry's interpreter input is the concatenation of the
two response bodies. When the first HTTP-200 attempt yields no weather
and the widening retry is performed, the buffers handed to
`WeatherProcessResponse` over the whole fetch are exactly `[b0, b0 ++ b1]`
— the read buffer is never cleared, so the interpreter never sees the
second body alone. -/
theorem weatherFetch_retry_concat (net : NetOracle) (lat lon radius : ℚ) (b0 b1 : List Char)
    (h0 : net.resp 0 = .ok 200 b0)
    (hf : returnsFalse (WeatherProcessResponse b0) = true)
    (hrad : radius < MAX_WEATHER_RADIUS_NM)
    (h1 : net.resp 1 = .ok 200 b1) :
    (WeatherFetch net lat lon radius).2.processed = [b0, b0 ++ b1] :=
  ((weatherFetch_fail_trace net lat lon radius b0 b1 h0 hf h1).1 hrad).2

/-- Witness for C8. -/
theorem weatherFetch_retry_concat_witness :
    netNotFound.resp 0 = .ok 200 bodyNoResults ∧
    returnsFalse (WeatherProcessResponse bodyNoResults) = true ∧
    (25 : ℚ) < MAX_WEATHER_RADIUS_NM ∧
    netNotFound.resp 1 = .ok 200 (str "<x/>") ∧
    (WeatherFetch netNotFound 33 (-118) 25).2.processed =
      [bodyNoResults, bodyNoResults ++ str "<x/>"] :=
  ⟨by decide, by decide, by decide, by decide,
    weatherFetch_retry_concat netNotFound 33 (-118) 25 bodyNoResults (str "<x/>")
      (by decide) (by decide) (by decide) (by decide)⟩

/-! Claims about the coordinator. -/

/-- Claim C1: single-flight. In every coordinator state whose stored
fetch handle is valid and whose non-blocking poll does not report ready,
`WeatherUpdate` at any position passing the latitude gate returns
`false`, launches no worker, and leaves the stored handle unchanged. -/
theorem weatherUpdate_single_flight (st : CoordState) (pos : positionTy) (radius_nm : ℚ)
    (newReady : Bool) (hvalid : st.futValid = true) (hready : st.futReady = false)
    (hlat : pos.lat < 80) :
    WeatherUpdate st pos radius_nm newReady = (false, st, none) := by
  unfold WeatherUpdate
  rw [if_neg (not_le.mpr hlat), if_pos (by simp [hvalid, hready])]

/-- Witness for C1 at a concrete busy state and mid-latitude position. -/
theorem weatherUpdate_single_flight_witness :
    (CoordState.mk true false).futValid = true ∧
    (CoordState.mk true false).futReady = false ∧
    (positionTy.mk 40 10).lat < 80 ∧
    WeatherUpdate ⟨true, false⟩ ⟨40, 10⟩ 25 false = (false, ⟨true, false⟩, none) :=
  ⟨rfl, rfl, by decide,
    weatherUpdate_single_flight ⟨true, false⟩ ⟨40, 10⟩ 25 false rfl rfl (by decide)⟩

/-- Counterexample to claim C2 as stated: at latitude −85 we have
`|lat| ≥ 80`, yet with an idle in-flight state `WeatherUpdate` returns
`true`, stores a new handle and launches a worker — the source gate is
one-sided (`pos.lat() >= 80.0`), it does not use the absolute value. -/
theorem weatherUpdate_latitude_gate_cex :
    (80 : ℚ) ≤ |(-85 : ℚ)| ∧
    WeatherUpdate ⟨false, false⟩ ⟨-85, 10⟩ 25 false =
      (true, ⟨true, false⟩, some (-85, 10, 25)) := by
  constructor
  · norm_num
  · decide

/-- Claim C2, amended: for every position with latitude ≥ 80 (the gate is
one-sided; southern latitudes are not gated) and every radius,
`WeatherUpdate` returns `false` without launching a worker and without
touching the in-flight state. -/
theorem weatherUpdate_latitude_gate_amended (st : CoordState) (pos : positionTy)
    (radius_nm : ℚ) (newReady : Bool) (hlat : (80 : ℚ) ≤ pos.lat) :
    WeatherUpdate st pos radius_nm newReady = (false, st, none) := by
  unfold WeatherUpdate
  rw [if_pos hlat]

/-- Witness for the amended C2 at latitude 85. -/
theorem weatherUpdate_latitude_gate_amended_witness :
    (80 : ℚ) ≤ (positionTy.mk 85 10).lat ∧
    WeatherUpdate ⟨false, false⟩ ⟨85, 10⟩ 25 false = (false, ⟨false, false⟩, none) :=
  ⟨by decide, weatherUpdate_latitude_gate_amended ⟨false, false⟩ ⟨85, 10⟩ 25 false (by decide)⟩

/-! Claims about the tag extractor. -/

/-- Counterexample to claim C6 as stated: for buffer `abcdef`, absent tag
`<x>` and cursor 3, `GetXMLValue` returns the empty string but leaves the
cursor at 3 — it is not reset to 0. -/
theorem getXMLValue_absent_cex :
    strFind (str "abcdef") (str "<x>") 3 = none ∧
    GetXMLValue (str "abcdef") (str "<x>") 3 = ([], 3) ∧
    (GetXMLValue (str "abcdef") (str "<x>") 3).2 ≠ 0 := by
  decide

/-- Claim C6, amended: when the tag does not occur in the buffer at or
after the cursor, `GetXMLValue` returns the empty string and leaves the
cursor unchanged (the reset to 0 happens only in the other failure case,
a found tag with no subsequent `<`). -/
theorem getXMLValue_absent_amended (r tag : List Char) (pos : Nat)
    (h : strFind r tag pos = none) : GetXMLValue r tag pos = ([], pos) :=
  getXMLValue_of_absent r tag pos h

/-- Witness for the amended C6. -/
theorem getXMLValue_absent_amended_witness :
    strFind (str "abcdef") (str "<y>") 2 = none ∧
    GetXMLValue (str "abcdef") (str "<y>") 2 = ([], 2) :=
  ⟨by decide, getXMLValue_absent_amended (str "abcdef") (str "<y>") 2 (by decide)⟩

/-! Claims about the interpreter. -/

/-- Counterexample to claim C5 as stated: `bodyTwoErrors` contains
`<error>X</error>` with non-empty `X` and a valid non-empty
`<altim_in_hg>` value, yet `WeatherProcessResponse` classifies it as a
success (the first `<error>` occurrence is empty, so the error check
passes), so the sink is written. -/
theorem error_precedence_cex :
    (strFind bodyTwoErrors (str "<error>X</error>") 0).isSome = true ∧
    (GetXMLValue bodyTwoErrors (str "<altim_in_hg>") 0).1 ≠ [] ∧
    (stof ((GetXMLValue bodyTwoErrors (str "<altim_in_hg>") 0).1)).isSome = true ∧
    isSuccess (WeatherProcessResponse bodyTwoErrors) = true := by
  decide

/-- Claim C5, amended: for every body whose first `<error>` extraction
(from cursor 0) is non-empty, `WeatherProcessResponse` classifies the
body as that protocol error and never as a success, even if a valid
`<altim_in_hg>` value is also present; the sink is not written. -/
theorem error_precedence_amended (r : List Char) (h : ProtocolErrorBody r) :
    WeatherProcessResponse r = .ok (.err (errorVal r).1) ∧
    isSuccess (WeatherProcessResponse r) = false := by
  refine ⟨processResponse_of_protocolError r h, ?_⟩
  rw [processResponse_of_protocolError r h]; rfl

/-- Witness for the amended C5 on a body holding both a non-empty error
value and a valid pressure. -/
theorem error_precedence_amended_witness :
    ProtocolErrorBody (str "<error>Y</error><altim_in_hg>29.92</altim_in_hg>") ∧
    (WeatherProcessResponse (str "<error>Y</error><altim_in_hg>29.92</altim_in_hg>") =
        .ok (.err (errorVal (str "<error>Y</error><altim_in_hg>29.92</altim_in_hg>")).1) ∧
      isSuccess (WeatherProcessResponse
        (str "<error>Y</error><altim_in_hg>29.92</altim_in_hg>")) = false) :=
  ⟨by decide, error_precedence_amended _ (by decide)⟩

/-! Exception containment and the empty-error-tag path. -/

/-- Claim C10: non-numeric pressure is contained. For every HTTP-200
body reaching the pressure conversion (empty `<error>` extraction) whose
`<altim_in_hg>` content is non-empty but not parseable, the conversion
raises (`WeatherProcessResponse` is `.error`), the exception is caught at
the worker boundary — `WeatherFetch` still returns a value — that value
is `false`, and the sink is never written. -/
theorem nonnumeric_pressure_contained (net : NetOracle) (lat lon radius : ℚ) (b : List Char)
    (h0 : net.resp 0 = .ok 200 b)
    (he : (errorVal b).1 = [])
    (ha : (GetXMLValue b (str "<altim_in_hg>") (errorVal b).2).1 ≠ [])
    (hn : stof ((GetXMLValue b (str "<altim_in_hg>") (errorVal b).2).1) = none) :
    WeatherProcessResponse b =
      .error ((GetXMLValue b (str "<altim_in_hg>") (errorVal b).2).1) ∧
    (WeatherFetch net lat lon radius).1 = false ∧
    (WeatherFetch net lat lon radius).2.sinkWrites = [] := by
  unfold errorVal at he ha hn
  have hWP : WeatherProcessResponse b =
      .error ((GetXMLValue b (str "<altim_in_hg>") (GetXMLValue b (str "<error>") 0).2).1) := by
    unfold WeatherProcessResponse
    rw [if_neg (fun hne => hne he), if_pos ha, hn]
  have hit := iteration_200_procError net radius ⟨false, [], false, 0, [], [], []⟩ b _ h0 hWP
  refine ⟨hWP, ?_, ?_⟩ <;>
    (unfold WeatherFetch; rw [fetchLoop_succ, hit])

/-- Witness for C10: a lone non-numeric pressure body. -/
theorem nonnumeric_pressure_contained_witness :
    netBadAltim.resp 0 = .ok 200 bodyBadAltim ∧
    (errorVal bodyBadAltim).1 = [] ∧
    (GetXMLValue bodyBadAltim (str "<altim_in_hg>") (errorVal bodyBadAltim).2).1 ≠ [] ∧
    stof ((GetXMLValue bodyBadAltim (str "<altim_in_hg>") (errorVal bodyBadAltim).2).1) = none ∧
    (WeatherProcessResponse bodyBadAltim =
        .error ((GetXMLValue bodyBadAltim (str "<altim_in_hg>") (errorVal bodyBadAltim).2).1) ∧
      (WeatherFetch netBadAltim 33 (-118) 25).1 = false ∧
      (WeatherFetch netBadAltim 33 (-118) 25).2.sinkWrites = []) :=
  ⟨by decide, by decide, by decide, by decide,
    nonnumeric_pressure_contained netBadAltim 33 (-118) 25 bodyBadAltim
      (by decide) (by decide) (by decide) (by decide)⟩

/-- When the error step passed with an empty value and the pressure
parses, and the best-effort latitude/longitude extractions are empty or
numeric, the interpreter classifies the body as a success. -/
theorem processResponse_success_shape (r : List Char)
    (he : (errorVal r).1 = [])
    (ha : (GetXMLValue r (str "<altim_in_hg>") (errorVal r).2).1 ≠ [])
    (q : ℚ) (hq : stof ((GetXMLValue r (str "<altim_in_hg>") (errorVal r).2).1) = some q)
    (hla : stofOptOk (latAt r).1 = true)
    (hlo : stofOptOk (lonAt r).1 = true) :
    isSuccess (WeatherProcessResponse r) = true := by
  unfold errorVal at he ha hq
  unfold lonAt at hlo
  unfold latAt stationAt rawTextAt at hla hlo
  unfold WeatherProcessResponse
  rw [if_neg (fun hne => hne he), if_pos ha]
  simp only [hq]
  cases hsla : stofOpt (GetXMLValue r (str "<latitude>")
      (GetXMLValue r (str "<station_id>") (GetXMLValue r (str "<raw_text>") 0).2).2).1 with
  | error e => simp [stofOptOk, hsla] at hla
  | ok lv =>
    simp only [hsla]
    cases hslo : stofOpt (GetXMLValue r (str "<longitude>")
        (GetXMLValue r (str "<latitude>")
          (GetXMLValue r (str "<station_id>")
            (GetXMLValue r (str "<raw_text>") 0).2).2).2).1 with
    | error e => simp [stofOptOk, hslo] at hlo
    | ok lov => simp only [hslo, isSuccess]

/-- Counterexample to claim C9 as stated: in `bodyEmptyErrBadAltim` the
first `<error>` (at index 0) is immediately followed by `<`, and a
non-empty `<altim_in_hg>` value occurs after the post-error cursor 7 —
yet the outcome is not `Success`: the value `abc` makes the conversion
raise instead. -/
theorem empty_error_tag_cex :
    strFind bodyEmptyErrBadAltim (str "<error>") 0 = some 0 ∧
    strFind bodyEmptyErrBadAltim (str "<") (0 + 7) = some (0 + 7) ∧
    (GetXMLValue bodyEmptyErrBadAltim (str "<altim_in_hg>") (0 + 7)).1 ≠ [] ∧
    isSuccess (WeatherProcessResponse bodyEmptyErrBadAltim) = false ∧
    WeatherProcessResponse bodyEmptyErrBadAltim = .error (str "abc") := by
  refine ⟨by decide, by decide, by decide, by decide, ?_⟩
  rfl

/-- Claim C9, amended: when the first `<error>` occurrence (at index `i`)
is immediately followed by `<`, the body is not classified as a protocol
error and the pressure extraction proceeds from cursor `i + 7`, just
after the error tag; if the non-empty `<altim_in_hg>` found there parses
as a number — and the optional latitude/longitude fields, when present,
parse too — the outcome is a success. -/
theorem empty_error_tag_amended (r : List Char) (i : Nat)
    (hfind : strFind r (str "<error>") 0 = some i)
    (hlt : strFind r (str "<") (i + 7) = some (i + 7))
    (ha : (GetXMLValue r (str "<altim_in_hg>") (i + 7)).1 ≠ [])
    (hnum : (stof ((GetXMLValue r (str "<altim_in_hg>") (i + 7)).1)).isSome = true)
    (hla : stofOptOk (latAt r).1 = true)
    (hlo : stofOptOk (lonAt r).1 = true) :
    (errorVal r).1 = [] ∧ (errorVal r).2 = i + 7 ∧
    isSuccess (WeatherProcessResponse r) = true := by
  have hlen : (str "<error>").length = 7 := rfl
  have he : GetXMLValue r (str "<error>") 0 = ([], i + 7) := by
    simp only [GetXMLValue, hfind, hlen, hlt]
    simp
  have he1 : (errorVal r).1 = [] := by unfold errorVal; rw [he]
  have he2 : (errorVal r).2 = i + 7 := by unfold errorVal; rw [he]
  obtain ⟨q, hq⟩ := Option.isSome_iff_exists.mp hnum
  exact ⟨he1, he2,
    processResponse_success_shape r he1 (by rw [he2]; exact ha) q
      (by rw [he2]; exact hq) hla hlo⟩

/-- Witness for the amended C9: empty error element followed by a
parseable pressure. -/
theorem empty_error_tag_amended_witness :
    strFind bodyEmptyErrGoodAltim (str "<error>") 0 = some 0 ∧
    strFind bodyEmptyErrGoodAltim (str "<") (0 + 7) = some (0 + 7) ∧
    (GetXMLValue bodyEmptyErrGoodAltim (str "<altim_in_hg>") (0 + 7)).1 ≠ [] ∧
    (stof ((GetXMLValue bodyEmptyErrGoodAltim (str "<altim_in_hg>") (0 + 7)).1)).isSome = true ∧
    stofOptOk (latAt bodyEmptyErrGoodAltim).1 = true ∧
    stofOptOk (lonAt bodyEmptyErrGoodAltim).1 = true ∧
    ((errorVal bodyEmptyErrGoodAltim).1 = [] ∧
      (errorVal bodyEmptyErrGoodAltim).2 = 0 + 7 ∧
      isSuccess (WeatherProcessResponse bodyEmptyErrGoodAltim) = true) :=
  ⟨by decide, by decide, by decide, by decide, by decide, by decide,
    empty_error_tag_amended bodyEmptyErrGoodAltim 0
      (by decide) (by decide) (by decide) (by decide) (by decide) (by decide)⟩

end LTWeather
